import Mathlib

/-!
Shallow embedding of the pysearxng example/adapter scripts.

Source files embedded here:
  - examples/pyplexity_adapter.py     (PyplexitySearchAdapter, §4.5)
  - examples/pyplexity_replacement.py (SearxngClient, §4.6)
  - examples/basic_usage.py           (basic-usage walkthrough, §4.4)
  - examples/simple_search.py         (minimal walkthrough, §4.1)

Python strings are modelled as Lean `String` (a list of code points, so
Python `len` is `String.length` and slicing is `List.take` on `.data`).
The external `pyserxng` dependency is modelled by oracle functions
(`run : SearchConfig → Except UpstreamError (List ExternalResult)`): the
adapters' own control flow, configuration building, conversion, error
translation and de-duplication are embedded from the source.
-/

/-- Python string helpers: `str.lower()` (ASCII range, which covers all
literals this repository compares against). -/
def pyLower (s : String) : String := ⟨s.data.map Char.toLower⟩

/-- Python `str.isspace`-style membership used by `str.strip()`:
space, tab, newline, carriage return, vertical tab, form feed. -/
def pyIsSpace (c : Char) : Bool :=
  c == ' ' || c == '\t' || c == '\n' || c == '\r' || c == '\x0b' || c == '\x0c'

/-- Python `str.strip()`: drop leading and trailing whitespace. -/
def pyStrip (s : String) : String :=
  ⟨((s.data.dropWhile pyIsSpace).reverse.dropWhile pyIsSpace).reverse⟩

/-- Python `str.rstrip('/')`: drop ALL trailing slash characters. -/
def pyRstripSlash (s : String) : String :=
  ⟨(s.data.reverse.dropWhile (fun c => c == '/')).reverse⟩

/-- Python `arg or default` for an optional list argument: `None` and the
empty list are both falsy, so either yields the default. -/
def pyOrList (arg : Option (List String)) (dflt : List String) : List String :=
  match arg with
  | none => dflt
  | some l => if l = [] then dflt else l

/-- pyserxng `SearchCategory` members used by this repository. -/
inductive SearchCategory where
  | GENERAL
  | IMAGES
  | NEWS
deriving DecidableEq, Repr

/-- pyserxng `SafeSearchLevel` enumeration. -/
inductive SafeSearchLevel where
  | NONE
  | MODERATE
  | STRICT
deriving DecidableEq, Repr

/-- `SafeSearchLevel(value)` in Python: valid for 0, 1, 2, otherwise the
enum constructor raises `ValueError` (modelled as `none`). -/
def SafeSearchLevel.ofValue : Nat → Option SafeSearchLevel
  | 0 => some SafeSearchLevel.NONE
  | 1 => some SafeSearchLevel.MODERATE
  | 2 => some SafeSearchLevel.STRICT
  | _ => none

/-- pyserxng `SearchConfig` fields as built by the two adapters. -/
structure SearchConfig where
  categories : List SearchCategory
  engines : Option (List String)
  language : String
  page : Nat
  safe_search : SafeSearchLevel
  timeout : Nat
deriving DecidableEq, Repr

/-- A result as returned by the external pyserxng client (`response.results`
entries); only the fields the adapters read are modelled. -/
structure ExternalResult where
  title : String
  url : String
  content : String
  thumbnail : Option String
  engine : Option String
deriving DecidableEq, Repr

/-- The external dependency's declared failure kinds (`SearchError`,
`NetworkError`, `RateLimitError`) plus any other unexpected exception. -/
inductive UpstreamError where
  | searchError (msg : String)
  | networkError (msg : String)
  | rateLimitError (msg : String)
  | otherError (msg : String)
deriving DecidableEq, Repr

/-- Python `str(e)` of a single-argument exception: its message text. -/
def UpstreamError.text : UpstreamError → String
  | UpstreamError.searchError m => m
  | UpstreamError.networkError m => m
  | UpstreamError.rateLimitError m => m
  | UpstreamError.otherError m => m

/-- An oracle standing for `self.client.search(query, config, instance)`:
given the per-call configuration, either the response's result list or the
exception it raised.  The query string does not influence any property
claimed here, so it is absorbed into the oracle. -/
abbrev SearchRun := SearchConfig → Except UpstreamError (List ExternalResult)

/-- Generic first-seen-order URL de-duplication: the loop body shared
verbatim by `PyplexitySearchAdapter._deduplicate_results` and
`SearxngClient._deduplicate_results` (`seen_urls` set, keep first). -/
def dedupByUrl (f : α → String) : List String → List α → List α
  | _, [] => []
  | seen, r :: rs =>
    if f r ∈ seen then dedupByUrl f seen rs
    else r :: dedupByUrl f (f r :: seen) rs

/-! ## pyplexity_adapter.py (§4.5) -/

/-- `SearchResult` dataclass of examples/pyplexity_adapter.py. -/
structure AdapterSearchResult where
  title : String
  url : String
  content : String
  img_src : Option String := none
deriving DecidableEq, Repr

/-- Conversion of one external result inside `PyplexitySearchAdapter.search`:
`SearchResult(title=…, url=str(…), content=…, img_src=str(thumbnail) if thumbnail else None)`. -/
def convertAdapter (r : ExternalResult) : AdapterSearchResult :=
  { title := r.title, url := r.url, content := r.content, img_src := r.thumbnail }

/-- Constructor-time state of `PyplexitySearchAdapter` (defaults as in
`__init__`). -/
structure AdapterState where
  endpoint : String := "http://localhost:4000"
  active_engines : List String := ["google", "bing", "wikipedia"]
  search_languages : List String := ["auto", "ru", "en", "de", "fr"]
  max_results : Nat := 15
deriving DecidableEq, Repr

/-- The per-language `SearchConfig` built in `PyplexitySearchAdapter.search`:
general category, effective engines, `lang if lang != "auto" else "en"`,
given page, mapped safe-search level, fixed 30-unit timeout. -/
def PyplexitySearchAdapter.buildConfig (search_engines : List String)
    (lang : String) (page : Nat) (lvl : SafeSearchLevel) : SearchConfig :=
  { categories := [SearchCategory.GENERAL]
    engines := some search_engines
    language := if lang ≠ "auto" then lang else "en"
    page := page
    safe_search := lvl
    timeout := 30 }

/-- `PyplexitySearchAdapter._deduplicate_results`. -/
def PyplexitySearchAdapter.deduplicate_results
    (results : List AdapterSearchResult) : List AdapterSearchResult :=
  dedupByUrl (fun r => r.url) [] results

/-- The `for lang in search_langs` loop of `PyplexitySearchAdapter.search`:
on success append the converted results and break once the accumulated
length reaches `max_results`; on any error print a diagnostic and continue
with the next language. -/
def PyplexitySearchAdapter.searchLoop (run : SearchRun)
    (search_engines : List String) (page : Nat) (lvl : SafeSearchLevel)
    (max_results : Nat) :
    List String → List AdapterSearchResult → List AdapterSearchResult
  | [], results => results
  | lang :: rest, results =>
    match run (PyplexitySearchAdapter.buildConfig search_engines lang page lvl) with
    | Except.ok rs =>
      let results2 := results ++ rs.map convertAdapter
      if max_results ≤ results2.length then results2
      else PyplexitySearchAdapter.searchLoop run search_engines page lvl max_results rest results2
    | Except.error _ =>
      PyplexitySearchAdapter.searchLoop run search_engines page lvl max_results rest results

/-- `PyplexitySearchAdapter.search`: effective engines/languages via Python
`or`, numeric safe-search mapped through the enum constructor (a bad value
raises, modelled as `none`), the per-language loop, truncation to
`max_results`, then de-duplication. -/
def PyplexitySearchAdapter.search (st : AdapterState) (run : SearchRun)
    (engines languages : Option (List String)) (page : Nat)
    (safe_search : Nat) : Option (List AdapterSearchResult) :=
  let search_engines := pyOrList engines st.active_engines
  let search_langs := pyOrList languages st.search_languages
  match SafeSearchLevel.ofValue safe_search with
  | none => none
  | some lvl =>
    some (PyplexitySearchAdapter.deduplicate_results
      ((PyplexitySearchAdapter.searchLoop run search_engines page lvl
          st.max_results search_langs []).take st.max_results))

/-! ## pyplexity_replacement.py (§4.6) -/

/-- `SearchResult` dataclass of examples/pyplexity_replacement.py (exact
pyplexity field set). -/
structure SearchResult where
  title : String
  url : String
  content : String := ""
  img_src : Option String := none
  thumbnail_src : Option String := none
  author : Option String := none
  iframe_src : Option String := none
deriving DecidableEq, Repr

/-- `SearchEngineError` of examples/pyplexity_replacement.py, carrying its
message text. -/
structure SearchEngineError where
  message : String
deriving DecidableEq, Repr

/-- Endpoint resolution in `SearxngClient.__init__`: a case-insensitive
"public"/"auto" becomes the literal local endpoint, anything else is
`endpoint.rstrip('/')`. -/
def SearxngClient.resolveEndpoint (endpoint : String) : String :=
  if pyLower endpoint ∈ (["public", "auto"] : List String) then
    "http://localhost:4000"
  else
    pyRstripSlash endpoint

/-- Engine preparation in `SearxngClient._search_single_language`:
`search_engines = None`; if a non-empty list was supplied, strip each entry,
drop falsy/blank ones, and only a non-empty remainder is used. -/
def SearxngClient.prepareEngines (engines : Option (List String)) :
    Option (List String) :=
  match engines with
  | none => none
  | some es =>
    if es = [] then none
    else
      let valid_engines := es.filterMap (fun engine =>
        if engine ≠ "" ∧ pyStrip engine ≠ "" then some (pyStrip engine) else none)
      if valid_engines = [] then none else some valid_engines

/-- The `SearchConfig` built in `SearxngClient._search_single_language`. -/
def SearxngClient.buildConfig (engines : Option (List String))
    (language : String) (page : Nat) : SearchConfig :=
  { categories := [SearchCategory.GENERAL]
    engines := SearxngClient.prepareEngines engines
    language := if language ≠ "auto" then language else "en"
    page := page
    safe_search := SafeSearchLevel.MODERATE
    timeout := 30 }

/-- Conversion of one external result inside `_search_single_language`:
img_src and thumbnail_src both from the single external thumbnail, author
and iframe_src always absent. -/
def convertReplacement (r : ExternalResult) : SearchResult :=
  { title := r.title
    url := r.url
    content := r.content
    img_src := r.thumbnail
    thumbnail_src := r.thumbnail
    author := none
    iframe_src := none }

/-- `SearxngClient._search_single_language`: build the config, run the
search, convert results; any raised failure — a declared pyserxng kind or
any other exception (both `except` arms produce the same message) — is
re-raised as `SearchEngineError("SearXNG search failed: " + str(e))`. -/
def SearxngClient.search_single_language (run : SearchRun)
    (engines : Option (List String)) (language : String) (page : Nat) :
    Except SearchEngineError (List SearchResult) :=
  match run (SearxngClient.buildConfig engines language page) with
  | Except.ok rs => Except.ok (rs.map convertReplacement)
  | Except.error e =>
    Except.error { message := "SearXNG search failed: " ++ e.text }

/-- `if not languages: languages = ["auto"]` (None and the empty list are
both falsy). -/
def SearxngClient.defaultLanguages (languages : Option (List String)) :
    List String :=
  match languages with
  | none => ["auto"]
  | some l => if l = [] then ["auto"] else l

/-- The `for language in languages` loop of `SearxngClient.search`: extend
the accumulator on a non-empty success, catch and log any failure, and
continue with the next language either way. -/
def SearxngClient.searchLoop (run : SearchRun)
    (engines : Option (List String)) (page : Nat) :
    List String → List SearchResult → List SearchResult
  | [], all_results => all_results
  | language :: rest, all_results =>
    match SearxngClient.search_single_language run engines language page with
    | Except.ok lang_results =>
      SearxngClient.searchLoop run engines page rest
        (if lang_results ≠ [] then all_results ++ lang_results else all_results)
    | Except.error _ =>
      SearxngClient.searchLoop run engines page rest all_results

/-- `SearxngClient._deduplicate_results`. -/
def SearxngClient.deduplicate_results (results : List SearchResult) :
    List SearchResult :=
  dedupByUrl (fun r => r.url) [] results

/-- `SearxngClient.search`: default the language list, run the per-language
loop, then de-duplicate and return. -/
def SearxngClient.search (run : SearchRun)
    (engines languages : Option (List String)) (page : Nat) :
    List SearchResult :=
  SearxngClient.deduplicate_results
    (SearxngClient.searchLoop run engines page
      (SearxngClient.defaultLanguages languages) [])

/-! ## Snippet printing (examples/simple_search.py and examples/basic_usage.py) -/

/-- The snippet expression of simple_search.py line 32:
`content[:80] + "..." if len(content) > 80 else content`. -/
def simple_search_snippet (content : String) : String :=
  if content.length > 80 then ⟨content.data.take 80⟩ ++ "..." else content

/-- The snippet expression of basic_usage.py line 72:
`content[:100] + "..." if len(content) > 100 else content`. -/
def basic_usage_snippet (content : String) : String :=
  if content.length > 100 then ⟨content.data.take 100⟩ ++ "..." else content

/-! ## basic_usage.py walkthrough control flow (§4.4) -/

/-- pyserxng `InstanceInfo` as used by the walkthroughs (url plus status). -/
structure InstanceInfo where
  url : String
  status : String
deriving DecidableEq, Repr

/-- A search response as read by basic_usage.py (`results.results`). -/
structure SearchResponse where
  results : List ExternalResult
deriving DecidableEq, Repr

/-- Outcomes of the external calls basic_usage.py performs, fixed before the
run: the instance lists returned by discovery and the result of each
fallible client call. -/
structure BUEnv where
  instances : List InstanceInfo
  best_instances : List InstanceInfo
  searchOutcome : Except UpstreamError SearchResponse
  imageOutcome : Except UpstreamError SearchResponse
  newsOutcome : Except UpstreamError SearchResponse
  testInstanceOutcome : Bool
  exportOutcome : Except UpstreamError Unit
  suggestions : List String
deriving Repr

/-- The observable steps of basic_usage.py's `main`, in program order. -/
inductive BUStep where
  | updateInstances
  | getInstances
  | filterOnline
  | getBestInstances
  | basicSearch
  | reportSearchFailure
  | imageSearch
  | newsSearch
  | testInstance
  | stats
  | exportResults
  | getSuggestions
  | closeClient
deriving DecidableEq, Repr

/-- Trace of `main` in examples/basic_usage.py: instance selection (best
list, else first five online ones, else exit), then the step-5 general
search whose `except` arm prints a message and RETURNS, then — only on
step-5 success — image search, news search, instance probe, statistics,
conditional export, suggestions, and client close. -/
def basic_usage_main (env : BUEnv) : List BUStep :=
  let working_instances := env.instances.filter (fun inst => inst.status == "online")
  let sel :=
    if env.best_instances ≠ [] then some env.best_instances
    else if working_instances ≠ [] then some (working_instances.take 5)
    else none
  [BUStep.updateInstances, BUStep.getInstances, BUStep.filterOnline,
   BUStep.getBestInstances] ++
  match sel with
  | none => []
  | some selected =>
    BUStep.basicSearch ::
    match env.searchOutcome with
    | Except.error _ => [BUStep.reportSearchFailure]
    | Except.ok results =>
      [BUStep.imageSearch, BUStep.newsSearch] ++
      (if selected ≠ [] then [BUStep.testInstance] else []) ++
      [BUStep.stats] ++
      (if results.results ≠ [] then [BUStep.exportResults] else []) ++
      [BUStep.getSuggestions, BUStep.closeClient]

/-! ## Helper lemmas -/

theorem stringDataEq {a b : String} (h : a.data = b.data) : a = b :=
  congrArg String.mk h

theorem dedupByUrl_sublist (f : α → String) :
    ∀ (seen : List String) (l : List α), (dedupByUrl f seen l).Sublist l := by
  intro seen l
  induction l generalizing seen with
  | nil => simp [dedupByUrl]
  | cons a rest ih =>
    rw [dedupByUrl]
    by_cases hc : f a ∈ seen
    · rw [if_pos hc]
      exact (ih seen).cons a
    · rw [if_neg hc]
      exact (ih (f a :: seen)).cons₂ a

theorem dedupByUrl_not_mem_seen (f : α → String) :
    ∀ (seen : List String) (l : List α) (x : α),
      x ∈ dedupByUrl f seen l → f x ∉ seen := by
  intro seen l
  induction l generalizing seen with
  | nil => intro x hx; simp [dedupByUrl] at hx
  | cons a rest ih =>
    intro x hx
    rw [dedupByUrl] at hx
    by_cases hc : f a ∈ seen
    · rw [if_pos hc] at hx
      exact ih seen x hx
    · rw [if_neg hc] at hx
      rcases List.mem_cons.mp hx with rfl | h
      · exact hc
      · intro hmem
        exact ih (f a :: seen) x h (List.mem_cons_of_mem _ hmem)

theorem dedupByUrl_map_nodup (f : α → String) :
    ∀ (seen : List String) (l : List α), ((dedupByUrl f seen l).map f).Nodup := by
  intro seen l
  induction l generalizing seen with
  | nil => simp [dedupByUrl]
  | cons a rest ih =>
    rw [dedupByUrl]
    by_cases hc : f a ∈ seen
    · rw [if_pos hc]
      exact ih seen
    · rw [if_neg hc]
      simp only [List.map_cons, List.nodup_cons]
      refine ⟨?_, ih (f a :: seen)⟩
      intro hmem
      rcases List.mem_map.mp hmem with ⟨x, hx, hfx⟩
      exact dedupByUrl_not_mem_seen f _ _ x hx
        (by rw [hfx]; exact List.mem_cons_self _ _)

theorem dedupByUrl_first_seen (f : α → String) :
    ∀ (seen : List String) (l : List α) (y : α), y ∈ dedupByUrl f seen l →
      ∃ pre post, l = pre ++ y :: post ∧ ∀ p ∈ pre, f p = f y → f p ∈ seen := by
  intro seen l
  induction l generalizing seen with
  | nil => intro y hy; simp [dedupByUrl] at hy
  | cons a rest ih =>
    intro y hy
    rw [dedupByUrl] at hy
    by_cases hc : f a ∈ seen
    · rw [if_pos hc] at hy
      obtain ⟨pre, post, heq, hpre⟩ := ih seen y hy
      refine ⟨a :: pre, post, by rw [heq]; rfl, ?_⟩
      intro p hp hfp
      rcases List.mem_cons.mp hp with rfl | hp2
      · exact hc
      · exact hpre p hp2 hfp
    · rw [if_neg hc] at hy
      rcases List.mem_cons.mp hy with rfl | hy2
      · exact ⟨[], rest, rfl, by simp⟩
      · obtain ⟨pre, post, heq, hpre⟩ := ih (f a :: seen) y hy2
        have hyns : f y ∉ f a :: seen := dedupByUrl_not_mem_seen f _ _ y hy2
        have hya : f y ≠ f a := by
          intro h
          exact hyns (by rw [h]; exact List.mem_cons_self _ _)
        refine ⟨a :: pre, post, by rw [heq]; rfl, ?_⟩
        intro p hp hfp
        rcases List.mem_cons.mp hp with rfl | hp2
        · exact absurd hfp.symm hya
        · have h3 := hpre p hp2 hfp
          rcases List.mem_cons.mp h3 with heq2 | hmem
          · exact absurd (hfp.symm.trans heq2) hya
          · exact hmem

theorem searchLoop_all_fail (run : SearchRun) (engines : Option (List String))
    (page : Nat) :
    ∀ (langs : List String) (acc : List SearchResult),
      (∀ l ∈ langs, ∃ err,
        SearxngClient.search_single_language run engines l page = Except.error err) →
      SearxngClient.searchLoop run engines page langs acc = acc := by
  intro langs
  induction langs with
  | nil => intro acc _; rfl
  | cons l rest ih =>
    intro acc h
    obtain ⟨err, herr⟩ := h l (List.mem_cons_self l rest)
    rw [SearxngClient.searchLoop, herr]
    exact ih acc (fun x hx => h x (List.mem_cons_of_mem l hx))

/-! ## Claim theorems -/

/-- C3: every failure raised inside the Exact Replacement's per-language
search step — a declared external kind or any other exception — is
re-raised as the component's own `SearchEngineError` whose message is
exactly the literal prefix "SearXNG search failed: " followed by the
original failure's text. -/
theorem C3_error_translation (run : SearchRun) (engines : Option (List String))
    (language : String) (page : Nat) (err : UpstreamError)
    (h : run (SearxngClient.buildConfig engines language page) = Except.error err) :
    SearxngClient.search_single_language run engines language page =
      Except.error { message := "SearXNG search failed: " ++ err.text } := by
  unfold SearxngClient.search_single_language
  rw [h]

theorem C3_witness :
    (fun _ => Except.error (UpstreamError.networkError "connection refused") : SearchRun)
        (SearxngClient.buildConfig none "en" 1) =
      Except.error (UpstreamError.networkError "connection refused") ∧
    SearxngClient.search_single_language
        (fun _ => Except.error (UpstreamError.networkError "connection refused"))
        none "en" 1 =
      Except.error ⟨"SearXNG search failed: connection refused"⟩ :=
  ⟨rfl, C3_error_translation _ none "en" 1
    (UpstreamError.networkError "connection refused") rfl⟩

/-- C6: a `SearxngClient.search` call in which every language's per-language
step independently fails returns the empty list rather than raising. -/
theorem C6_all_languages_fail_empty (run : SearchRun)
    (engines languages : Option (List String)) (page : Nat)
    (h : ∀ l ∈ SearxngClient.defaultLanguages languages, ∃ err,
      SearxngClient.search_single_language run engines l page = Except.error err) :
    SearxngClient.search run engines languages page = [] := by
  unfold SearxngClient.search
  rw [searchLoop_all_fail run engines page _ [] h]
  rfl

theorem C6_witness :
    SearxngClient.search (fun _ => Except.error (UpstreamError.searchError "boom"))
      none (some ["en", "ru"]) 1 = [] :=
  C6_all_languages_fail_empty _ none (some ["en", "ru"]) 1 (by
    intro l _
    exact ⟨⟨"SearXNG search failed: boom"⟩, rfl⟩)

/-- C7: in both adapters' per-language configuration building, the literal
language token "auto" is mapped to "en", and any other literal code is
passed through unchanged. -/
theorem C7_auto_language_mapping (search_engines : List String)
    (eng : Option (List String)) (page : Nat) (lvl : SafeSearchLevel) (l : String) :
    ((PyplexitySearchAdapter.buildConfig search_engines "auto" page lvl).language = "en" ∧
     (SearxngClient.buildConfig eng "auto" page).language = "en") ∧
    (l ≠ "auto" →
      (PyplexitySearchAdapter.buildConfig search_engines l page lvl).language = l ∧
      (SearxngClient.buildConfig eng l page).language = l) := by
  constructor
  · exact ⟨rfl, rfl⟩
  · intro hl
    constructor
    · simp [PyplexitySearchAdapter.buildConfig, hl]
    · simp [SearxngClient.buildConfig, hl]

theorem C7_witness :
    ("ru" : String) ≠ "auto" ∧ (SearxngClient.buildConfig none "ru" 1).language = "ru" :=
  ⟨by decide,
   ((C7_auto_language_mapping [] none 1 SafeSearchLevel.MODERATE "ru").2 (by decide)).2⟩

/-- C10: in `PyplexitySearchAdapter.search`, passing an explicitly empty
list for engines or languages behaves identically to omitting the argument:
the construction-time defaults are used, so the explicit empty list is not
the list actually used. -/
theorem C10_empty_list_uses_defaults (st : AdapterState) (run : SearchRun)
    (page safe_search : Nat) :
    PyplexitySearchAdapter.search st run (some []) (some []) page safe_search =
      PyplexitySearchAdapter.search st run none none page safe_search ∧
    pyOrList (some []) st.active_engines = st.active_engines ∧
    pyOrList (some []) st.search_languages = st.search_languages := by
  exact ⟨rfl, rfl, rfl⟩

/-- C4: no two entries of a result list returned by either adapter's
`search` share an equal url, and the de-duplication keeps the accumulated
results' first-seen order: its output is an order-preserving sublist that
retains, for each url, the first entry bearing it. -/
theorem C4_dedup_unique_urls :
    (∀ (st : AdapterState) (run : SearchRun)
        (engines languages : Option (List String)) (page safe_search : Nat)
        (out : List AdapterSearchResult),
      PyplexitySearchAdapter.search st run engines languages page safe_search = some out →
      (out.map (fun r => r.url)).Nodup) ∧
    (∀ (run : SearchRun) (engines languages : Option (List String)) (page : Nat),
      ((SearxngClient.search run engines languages page).map (fun r => r.url)).Nodup) ∧
    (∀ rs : List AdapterSearchResult,
      (PyplexitySearchAdapter.deduplicate_results rs).Sublist rs ∧
      ∀ y ∈ PyplexitySearchAdapter.deduplicate_results rs,
        ∃ pre post, rs = pre ++ y :: post ∧ ∀ p ∈ pre, p.url ≠ y.url) ∧
    (∀ rs : List SearchResult,
      (SearxngClient.deduplicate_results rs).Sublist rs ∧
      ∀ y ∈ SearxngClient.deduplicate_results rs,
        ∃ pre post, rs = pre ++ y :: post ∧ ∀ p ∈ pre, p.url ≠ y.url) := by
  refine ⟨?_, ?_, ?_, ?_⟩
  · intro st run eng lang page ss out h
    simp only [PyplexitySearchAdapter.search] at h
    split at h
    · exact absurd h (by simp)
    · rw [Option.some.injEq] at h
      rw [← h]
      exact dedupByUrl_map_nodup _ _ _
  · intro run eng lang page
    exact dedupByUrl_map_nodup _ _ _
  · intro rs
    refine ⟨dedupByUrl_sublist _ _ _, ?_⟩
    intro y hy
    obtain ⟨pre, post, heq, hpre⟩ :=
      dedupByUrl_first_seen (fun r : AdapterSearchResult => r.url) [] rs y hy
    exact ⟨pre, post, heq, fun p hp hu => absurd (hpre p hp hu) (List.not_mem_nil _)⟩
  · intro rs
    refine ⟨dedupByUrl_sublist _ _ _, ?_⟩
    intro y hy
    obtain ⟨pre, post, heq, hpre⟩ :=
      dedupByUrl_first_seen (fun r : SearchResult => r.url) [] rs y hy
    exact ⟨pre, post, heq, fun p hp hu => absurd (hpre p hp hu) (List.not_mem_nil _)⟩

theorem C4_witness :
    PyplexitySearchAdapter.search {}
        (fun _ => Except.ok [⟨"t", "http://u", "c", none, none⟩]) none none 1 1 =
      some [⟨"t", "http://u", "c", none⟩] ∧
    (([⟨"t", "http://u", "c", none⟩] : List AdapterSearchResult).map (fun r => r.url)).Nodup :=
  ⟨by decide, C4_dedup_unique_urls.1 {}
    (fun _ => Except.ok [⟨"t", "http://u", "c", none, none⟩]) none none 1 1 _ (by decide)⟩

/-- C5: a list returned by `PyplexitySearchAdapter.search` never exceeds
the adapter's configured maximum result count: the accumulation is
truncated to `max_results` before de-duplication, which only removes. -/
theorem C5_max_results_bound (st : AdapterState) (run : SearchRun)
    (engines languages : Option (List String)) (page safe_search : Nat)
    (out : List AdapterSearchResult)
    (h : PyplexitySearchAdapter.search st run engines languages page safe_search = some out) :
    out.length ≤ st.max_results := by
  simp only [PyplexitySearchAdapter.search] at h
  split at h
  · exact absurd h (by simp)
  · rw [Option.some.injEq] at h
    rw [← h]
    simp only [PyplexitySearchAdapter.deduplicate_results]
    exact le_trans (List.Sublist.length_le (dedupByUrl_sublist _ _ _))
      (List.length_take_le _ _)

theorem C5_witness :
    PyplexitySearchAdapter.search {}
        (fun _ => Except.ok [⟨"a", "http://a", "", none, none⟩]) none none 1 1 =
      some [⟨"a", "http://a", "", none⟩] ∧
    ([(⟨"a", "http://a", "", none⟩ : AdapterSearchResult)]).length ≤
      ({} : AdapterState).max_results :=
  ⟨by decide, C5_max_results_bound {}
    (fun _ => Except.ok [⟨"a", "http://a", "", none, none⟩]) none none 1 1 _ (by decide)⟩

/-- C8: the Exact Replacement trims each supplied engine entry and discards
blank ones; when nothing valid remains (all-blank entries, or none
supplied) the engine filter stays unset, and any engine list that is set
consists exactly of non-blank trimmed supplied entries. -/
theorem C8_engine_trimming (es : List String) (language : String) (page : Nat) :
    ((∀ e ∈ es, pyStrip e = "") →
      (SearxngClient.buildConfig (some es) language page).engines = none) ∧
    (SearxngClient.buildConfig none language page).engines = none ∧
    (∀ l, (SearxngClient.buildConfig (some es) language page).engines = some l →
      l ≠ [] ∧ ∀ x ∈ l, ∃ e ∈ es, x = pyStrip e ∧ pyStrip e ≠ "") := by
  refine ⟨?_, rfl, ?_⟩
  · intro hall
    simp only [SearxngClient.buildConfig, SearxngClient.prepareEngines]
    by_cases hes : es = []
    · rw [if_pos hes]
    · rw [if_neg hes]
      have hnil : es.filterMap (fun engine =>
          if engine ≠ "" ∧ pyStrip engine ≠ "" then some (pyStrip engine) else none) = [] := by
        rw [List.filterMap_eq_nil_iff]
        intro e he
        have hne : ¬(e ≠ "" ∧ pyStrip e ≠ "") := fun hc => hc.2 (hall e he)
        rw [if_neg hne]
      rw [hnil]
      simp
  · intro l hl
    simp only [SearxngClient.buildConfig, SearxngClient.prepareEngines] at hl
    by_cases hes : es = []
    · rw [if_pos hes] at hl
      exact absurd hl (by simp)
    · rw [if_neg hes] at hl
      by_cases hv : es.filterMap (fun engine =>
          if engine ≠ "" ∧ pyStrip engine ≠ "" then some (pyStrip engine) else none) = []
      · rw [if_pos hv] at hl
        exact absurd hl (by simp)
      · rw [if_neg hv, Option.some.injEq] at hl
        constructor
        · rw [← hl]; exact hv
        · intro x hx
          rw [← hl] at hx
          obtain ⟨e, he, hfe⟩ := List.mem_filterMap.mp hx
          by_cases hce : e ≠ "" ∧ pyStrip e ≠ ""
          · rw [if_pos hce, Option.some.injEq] at hfe
            exact ⟨e, he, hfe.symm, hce.2⟩
          · rw [if_neg hce] at hfe
            exact absurd hfe (by simp)

theorem C8_witness :
    (∀ e ∈ (["  ", ""] : List String), pyStrip e = "") ∧
    (SearxngClient.buildConfig (some ["  ", ""]) "en" 1).engines = none :=
  ⟨by decide, (C8_engine_trimming ["  ", ""] "en" 1).1 (by decide)⟩

/-- C9: in both walkthroughs' snippet logic, a content string strictly
longer than the configured snippet length (80 in simple_search, 100 in
basic_usage) is printed as exactly that many characters followed by the
ellipsis marker, and a string at or below the length is printed unmodified
with no marker appended. -/
theorem C9_snippet_truncation (s : String) :
    (s.length > 80 → ∃ t, simple_search_snippet s = t ++ "..." ∧
      t.length = 80 ∧ t.data = s.data.take 80) ∧
    (s.length ≤ 80 → simple_search_snippet s = s) ∧
    (s.length > 100 → ∃ t, basic_usage_snippet s = t ++ "..." ∧
      t.length = 100 ∧ t.data = s.data.take 100) ∧
    (s.length ≤ 100 → basic_usage_snippet s = s) := by
  have hlen : ∀ n : Nat, n ≤ s.length → (String.mk (s.data.take n)).length = n := by
    intro n hn
    show (s.data.take n).length = n
    rw [List.length_take]
    exact Nat.min_eq_left hn
  refine ⟨?_, ?_, ?_, ?_⟩
  · intro h
    refine ⟨⟨s.data.take 80⟩, ?_, hlen 80 (Nat.le_of_lt h), rfl⟩
    simp only [simple_search_snippet, if_pos h]
  · intro h
    simp only [simple_search_snippet]
    rw [if_neg (by omega)]
  · intro h
    refine ⟨⟨s.data.take 100⟩, ?_, hlen 100 (Nat.le_of_lt h), rfl⟩
    simp only [basic_usage_snippet, if_pos h]
  · intro h
    simp only [basic_usage_snippet]
    rw [if_neg (by omega)]

theorem C9_witness :
    ((⟨List.replicate 81 'a'⟩ : String).length > 80) ∧
    (∃ t, simple_search_snippet ⟨List.replicate 81 'a'⟩ = t ++ "..." ∧
      t.length = 80 ∧ t.data = (⟨List.replicate 81 'a'⟩ : String).data.take 80) :=
  ⟨by decide, (C9_snippet_truncation ⟨List.replicate 81 'a'⟩).1 (by decide)⟩

theorem stringAppendData (a b : String) : (a ++ b).data = a.data ++ b.data := rfl

theorem dropWhile_head_not (p : α → Bool) :
    ∀ (l : List α) (c : α), (l.dropWhile p).head? = some c → p c = false := by
  intro l
  induction l with
  | nil => intro c h; simp [List.dropWhile] at h
  | cons a rest ih =>
    intro c h
    rw [List.dropWhile_cons] at h
    by_cases hp : p a
    · rw [if_pos hp] at h
      exact ih c h
    · rw [if_neg hp] at h
      rw [List.head?_cons, Option.some.injEq] at h
      rw [← h]
      simp only [Bool.not_eq_true] at hp
      exact hp

/-- `endpoint.rstrip('/')` splits the endpoint into the returned text plus
some number of trailing slashes, and the returned text never ends in
a slash: all trailing slashes are removed and none is added. -/
theorem pyRstripSlash_spec (s : String) :
    (∃ k, s = pyRstripSlash s ++ ⟨List.replicate k '/'⟩) ∧
    (∀ c, (pyRstripSlash s).data.getLast? = some c → c ≠ '/') := by
  constructor
  · refine ⟨(s.data.reverse.takeWhile (fun c => c == '/')).length, ?_⟩
    apply stringDataEq
    rw [stringAppendData]
    have htw : s.data.reverse.takeWhile (fun c => c == '/') =
        List.replicate (s.data.reverse.takeWhile (fun c => c == '/')).length '/' := by
      apply List.eq_replicate_of_mem
      intro b hb
      have hpb := List.mem_takeWhile_imp hb
      exact eq_of_beq hpb
    have hrev : (s.data.reverse.takeWhile (fun c => c == '/')).reverse =
        List.replicate (s.data.reverse.takeWhile (fun c => c == '/')).length '/' := by
      conv_lhs => rw [htw]
      rw [List.reverse_replicate]
    calc s.data = s.data.reverse.reverse := (List.reverse_reverse _).symm
      _ = (s.data.reverse.takeWhile (fun c => c == '/') ++
            s.data.reverse.dropWhile (fun c => c == '/')).reverse := by
            rw [List.takeWhile_append_dropWhile]
      _ = (s.data.reverse.dropWhile (fun c => c == '/')).reverse ++
            (s.data.reverse.takeWhile (fun c => c == '/')).reverse := by
            rw [List.reverse_append]
      _ = (pyRstripSlash s).data ++
            (s.data.reverse.takeWhile (fun c => c == '/')).reverse := rfl
      _ = (pyRstripSlash s).data ++
            List.replicate (s.data.reverse.takeWhile (fun c => c == '/')).length '/' := by
            rw [hrev]
  · intro c hc
    have h1 : (s.data.reverse.dropWhile (fun c => c == '/')).head? = some c := by
      rw [← List.getLast?_reverse]
      exact hc
    have h2 := dropWhile_head_not _ _ _ h1
    intro hceq
    rw [hceq] at h2
    simp at h2

/-- C2 (amended): constructing the Exact Replacement with an endpoint that
case-insensitively equals "public" or "auto" resolves to exactly
"http://localhost:4000"; any other endpoint resolves to that string with
ALL trailing slashes removed and none added. -/
theorem C2_endpoint_resolution (endpoint : String) :
    (pyLower endpoint ∈ (["public", "auto"] : List String) →
      SearxngClient.resolveEndpoint endpoint = "http://localhost:4000") ∧
    (pyLower endpoint ∉ (["public", "auto"] : List String) →
      (∃ k, endpoint = SearxngClient.resolveEndpoint endpoint ++ ⟨List.replicate k '/'⟩) ∧
      (∀ c, (SearxngClient.resolveEndpoint endpoint).data.getLast? = some c → c ≠ '/')) := by
  constructor
  · intro h
    unfold SearxngClient.resolveEndpoint
    rw [if_pos h]
  · intro h
    unfold SearxngClient.resolveEndpoint
    rw [if_neg h]
    exact pyRstripSlash_spec endpoint

/-- C2 counterexample: the endpoint "http://example.org//" does not resolve
to itself, nor to itself with exactly one trailing slash removed — both
trailing slashes are stripped, refuting "at most one trailing slash
removed". -/
theorem C2_counterexample :
    pyLower "http://example.org//" ∉ (["public", "auto"] : List String) ∧
    SearxngClient.resolveEndpoint "http://example.org//" ≠ "http://example.org//" ∧
    SearxngClient.resolveEndpoint "http://example.org//" ++ "/" ≠ "http://example.org//" := by
  decide

theorem C2_witness :
    (pyLower "PUBLIC" ∈ (["public", "auto"] : List String)) ∧
    SearxngClient.resolveEndpoint "PUBLIC" = "http://localhost:4000" :=
  ⟨by decide, (C2_endpoint_resolution "PUBLIC").1 (by decide)⟩

/-- Concrete environment in which discovery succeeds but the step-5 general
search raises. -/
def C1env : BUEnv :=
  { instances := [⟨"https://searx.example.org", "online"⟩]
    best_instances := [⟨"https://searx.example.org", "online"⟩]
    searchOutcome := Except.error (UpstreamError.networkError "connection timeout")
    imageOutcome := Except.ok ⟨[]⟩
    newsOutcome := Except.ok ⟨[]⟩
    testInstanceOutcome := true
    exportOutcome := Except.ok ()
    suggestions := [] }

/-- C1 counterexample: in an execution where step 5 raises, the walkthrough
stops at the failure report — the image search, news search, instance
probe, statistics printout, and suggestions request are NOT attempted. -/
theorem C1_counterexample :
    C1env.searchOutcome = Except.error (UpstreamError.networkError "connection timeout") ∧
    basic_usage_main C1env =
      [BUStep.updateInstances, BUStep.getInstances, BUStep.filterOnline,
       BUStep.getBestInstances, BUStep.basicSearch, BUStep.reportSearchFailure] ∧
    BUStep.imageSearch ∉ basic_usage_main C1env ∧
    BUStep.newsSearch ∉ basic_usage_main C1env ∧
    BUStep.testInstance ∉ basic_usage_main C1env ∧
    BUStep.stats ∉ basic_usage_main C1env ∧
    BUStep.getSuggestions ∉ basic_usage_main C1env := by
  refine ⟨rfl, ?_, ?_, ?_, ?_, ?_, ?_⟩ <;> decide

/-- C1 (amended): a failure of the step-5 general search is caught and
reported, but the walkthrough then returns — none of the subsequent steps
(image search, news search, instance probe, statistics, export,
suggestions, client close) runs. -/
theorem C1_step5_failure_stops_walkthrough (env : BUEnv) (err : UpstreamError)
    (h : env.searchOutcome = Except.error err) :
    (BUStep.basicSearch ∈ basic_usage_main env →
      BUStep.reportSearchFailure ∈ basic_usage_main env) ∧
    BUStep.imageSearch ∉ basic_usage_main env ∧
    BUStep.newsSearch ∉ basic_usage_main env ∧
    BUStep.testInstance ∉ basic_usage_main env ∧
    BUStep.stats ∉ basic_usage_main env ∧
    BUStep.exportResults ∉ basic_usage_main env ∧
    BUStep.getSuggestions ∉ basic_usage_main env ∧
    BUStep.closeClient ∉ basic_usage_main env := by
  unfold basic_usage_main
  rw [h]
  by_cases h1 : env.best_instances ≠ []
  · simp [h1]
  · by_cases h2 : (env.instances.filter fun inst => inst.status == "online") ≠ []
    · simp [h1, h2]
    · simp [h1, h2]

theorem C1_witness :
    C1env.searchOutcome = Except.error (UpstreamError.networkError "connection timeout") ∧
    BUStep.imageSearch ∉ basic_usage_main C1env :=
  ⟨rfl, (C1_step5_failure_stops_walkthrough C1env
    (UpstreamError.networkError "connection timeout") rfl).2.1⟩
